import Mathlib

/-!
Shallow embedding of the position / risk engine of the coinbase-trading
repository.  Money, prices and quantities are modelled as exact rationals
(the source uses Python floats; the spec's properties are stated "in exact
arithmetic").  Wall-clock timestamps and purely diagnostic format strings
are omitted from the embedded records; every field that any operation
reads or branches on is kept.  Python dictionaries are modelled as
association lists with erase-then-cons insertion; no specified property
depends on iteration order.
-/

namespace CoinbaseTrading

/- Constants from src/constants.py (and the identical module-level
constants of src/bot.py). -/

def STARTING_BALANCE_USD : ℚ := 1000

def MAX_POSITIONS : Nat := 4

def MAX_EXPOSURE : ℚ := 3/4

def MAX_PER_TRADE : ℚ := 1/4

def MIN_TRADE_SIZE : ℚ := 50

def RISK_PER_TRADE : ℚ := 2/100

def TIER_1_EXIT_PERCENTAGE : ℚ := 30/100

def TIER_2_EXIT_PERCENTAGE : ℚ := 30/100

def TRAILING_STOP_ACTIVATION_PCT : ℚ := 15/100

def TRAILING_STOP_DISTANCE_PCT : ℚ := 3/100

def ATR_STOP_LOSS_MULTIPLIER : ℚ := 3/2

def ATR_DYNAMIC_TP1_MULTIPLIER : ℚ := 2

def ATR_DYNAMIC_TP2_MULTIPLIER : ℚ := 4

def RSI_OVERBOUGHT_THRESHOLD : ℚ := 70

namespace Portfolio

/-- Position dictionary of src/portfolio.py `PositionTracker.open_position`
(the `timestamp` field, a wall-clock value, is omitted). -/
structure Position where
  entry_price : ℚ
  total_quantity : ℚ
  remaining_quantity : ℚ
  entry_value : ℚ
  position_value : ℚ
  unrealized_pnl : ℚ
  highest_price : ℚ
  tier_1_sold : Bool
  tier_2_sold : Bool
  trailing_stop_active : Bool
  trailing_stop_price : Option ℚ
  deriving DecidableEq

/-- Trade record appended by `execute_tier_exit` / `close_position`
(timestamp omitted). -/
structure Trade where
  pair : String
  type : String
  entry_price : ℚ
  exit_price : ℚ
  quantity : ℚ
  pnl_usd : ℚ
  pnl_percent : ℚ
  reason : String
  deriving DecidableEq

/-- Mutable state of `PositionTracker` in src/portfolio.py. -/
structure State where
  positions : List (String × Position)
  trade_history : List Trade
  total_pnl : ℚ
  cash_balance : ℚ
  starting_balance : ℚ
  deriving DecidableEq

/-- `PositionTracker.__init__`. -/
def initialState : State :=
  { positions := []
    trade_history := []
    total_pnl := 0
    cash_balance := STARTING_BALANCE_USD
    starting_balance := STARTING_BALANCE_USD }

/-- Dictionary lookup `self.positions[pair]` / `pair in self.positions`. -/
def findPos : List (String × Position) → String → Option Position
  | [], _ => none
  | e :: l, k => if e.1 = k then some e.2 else findPos l k

/-- Dictionary deletion `del self.positions[pair]`. -/
def erasePair (ps : List (String × Position)) (k : String) :
    List (String × Position) :=
  ps.filter (fun e => !(e.1 = k : Bool))

/-- Dictionary assignment `self.positions[pair] = ...` (replaces any
existing binding for the key). -/
def setPos (ps : List (String × Position)) (k : String) (v : Position) :
    List (String × Position) :=
  (k, v) :: erasePair ps k

/-- Value of the open positions at their entry prices and remaining
quantities, `Σ remaining_quantity_i × entry_price_i` (the quantity the
spec's conservation law sums). -/
def entryValue : List (String × Position) → ℚ
  | [] => 0
  | e :: l => e.2.remaining_quantity * e.2.entry_price + entryValue l

/-- `PositionTracker.calculate_total_balance`.  The optional
`current_prices` dictionary is modelled as a partial map; note the source
multiplies by `total_quantity` in both branches. -/
def calculate_total_balance (s : State)
    (current_prices : Option (String → Option ℚ)) : ℚ :=
  match current_prices with
  | none =>
      s.cash_balance +
        (s.positions.map
          (fun e => e.2.entry_price * e.2.total_quantity)).sum
  | some prices =>
      s.cash_balance +
        (s.positions.map
          (fun e => ((prices e.1).getD e.2.entry_price) * e.2.total_quantity)).sum

/-- Rejection / rationale tag of `calculate_position_size` (the source
returns human-readable strings with formatted numbers; only the tag is
modelled). -/
inductive SizeReason where
  | maxPositionsReached
  | tradeTooSmall
  | sized
  deriving DecidableEq

/-- `PositionTracker.calculate_position_size`.  `atr_value = none` models
Python `None`; the source guard `if atr_value and atr_value > 0` is falsy
for `None` and for `0`, which coincides with the `0 < a` test. -/
def calculate_position_size (s : State) (price : ℚ) (atr_value : Option ℚ) :
    ℚ × SizeReason :=
  let total_balance := calculate_total_balance s none
  if s.positions.length ≥ MAX_POSITIONS then
    (0, SizeReason.maxPositionsReached)
  else
    let used_exposure := total_balance - s.cash_balance
    let available_exposure := MAX_EXPOSURE * total_balance - used_exposure
    let max_trade_usd := min available_exposure (MAX_PER_TRADE * total_balance)
    if max_trade_usd < MIN_TRADE_SIZE then
      (0, SizeReason.tradeTooSmall)
    else
      let max_trade_usd₁ :=
        if max_trade_usd > s.cash_balance then s.cash_balance else max_trade_usd
      let max_trade_usd₂ :=
        match atr_value with
        | none => max_trade_usd₁
        | some a =>
            if 0 < a then
              let stop_loss_pct := ATR_STOP_LOSS_MULTIPLIER * a / price
              if 0 < stop_loss_pct then
                let risk_usd := total_balance * RISK_PER_TRADE
                let risk_based_position_usd := risk_usd / stop_loss_pct
                min max_trade_usd₁ risk_based_position_usd
              else max_trade_usd₁
            else max_trade_usd₁
      (max_trade_usd₂ / price, SizeReason.sized)

/-- `PositionTracker.open_position`.  Returns the success flag and the
updated state; no trade record is appended by this variant. -/
def open_position (s : State) (pair : String) (price : ℚ)
    (atr_value : Option ℚ) : Bool × State :=
  let quantity := (calculate_position_size s price atr_value).1
  if quantity ≤ 0 then
    (false, s)
  else
    let trade_value := quantity * price
    if trade_value > s.cash_balance then
      (false, s)
    else
      let pos : Position :=
        { entry_price := price
          total_quantity := quantity
          remaining_quantity := quantity
          entry_value := trade_value
          position_value := trade_value
          unrealized_pnl := 0
          highest_price := price
          tier_1_sold := false
          tier_2_sold := false
          trailing_stop_active := false
          trailing_stop_price := none }
      (true,
        { s with
            positions := setPos s.positions pair pos
            cash_balance := s.cash_balance - trade_value })

/-- Common tail of `execute_tier_exit` after the tier guard: `p` already
carries the flipped tier flag, `sell_quantity` the tier's share of the
original size. -/
def tierExitFinish (s : State) (pair : String) (current_price : ℚ)
    (reason : String) (p : Position) (sell_quantity : ℚ)
    (tierLabel : String) : ℚ × State :=
  let p' := { p with remaining_quantity := p.remaining_quantity - sell_quantity }
  let entry_price := p'.entry_price
  let sale_proceeds := current_price * sell_quantity
  let tier_pnl := (current_price - entry_price) * sell_quantity
  let trade : Trade :=
    { pair := pair
      type := tierLabel
      entry_price := entry_price
      exit_price := current_price
      quantity := sell_quantity
      pnl_usd := tier_pnl
      pnl_percent := (current_price - entry_price) / entry_price * 100
      reason := reason }
  let positions₁ := setPos s.positions pair p'
  let positions₂ :=
    if p'.remaining_quantity ≤ 1/1000 then erasePair positions₁ pair
    else positions₁
  (tier_pnl,
    { s with
        positions := positions₂
        trade_history := s.trade_history ++ [trade]
        total_pnl := s.total_pnl + tier_pnl
        cash_balance := s.cash_balance + sale_proceeds })

/-- `PositionTracker.execute_tier_exit`. -/
def execute_tier_exit (s : State) (pair : String) (current_price : ℚ)
    (tier : Nat) (reason : String) : ℚ × State :=
  match findPos s.positions pair with
  | none => (0, s)
  | some position =>
      if tier = 1 ∧ position.tier_1_sold = false then
        tierExitFinish s pair current_price reason
          { position with tier_1_sold := true }
          (position.total_quantity * TIER_1_EXIT_PERCENTAGE) "TIER_1_EXIT"
      else if tier = 2 ∧ position.tier_2_sold = false then
        tierExitFinish s pair current_price reason
          { position with tier_2_sold := true }
          (position.total_quantity * TIER_2_EXIT_PERCENTAGE) "TIER_2_EXIT"
      else
        (0, s)

/-- `PositionTracker.close_position`. -/
def close_position (s : State) (pair : String) (exit_price : ℚ)
    (reason : String) : ℚ × State :=
  match findPos s.positions pair with
  | none => (0, s)
  | some position =>
      let entry_price := position.entry_price
      let quantity := position.remaining_quantity
      let sale_proceeds := exit_price * quantity
      let pnl_usd := (exit_price - entry_price) * quantity
      let trade : Trade :=
        { pair := pair
          type := "FULL_EXIT"
          entry_price := entry_price
          exit_price := exit_price
          quantity := quantity
          pnl_usd := pnl_usd
          pnl_percent := (exit_price - entry_price) / entry_price * 100
          reason := reason }
      (pnl_usd,
        { s with
            positions := erasePair s.positions pair
            trade_history := s.trade_history ++ [trade]
            total_pnl := s.total_pnl + pnl_usd
            cash_balance := s.cash_balance + sale_proceeds })

/-- Per-position body of `PositionTracker.update_position`.  When the stop
is already active the source compares `new_stop_price` against the stored
stop; a state with an active stop but a `None` stop price would raise in
CPython and is unreachable from `open_position` (see `WFTrailing`); the
model arms the stop there. -/
def updatePosition (p : Position) (current_price : ℚ) : Position :=
  let position_value := current_price * p.remaining_quantity
  let unrealized_pnl := (current_price - p.entry_price) * p.remaining_quantity
  let highest :=
    if current_price > p.highest_price then current_price else p.highest_price
  let gain_pct := (current_price - p.entry_price) / p.entry_price
  let p₁ : Position :=
    { p with
        position_value := position_value
        unrealized_pnl := unrealized_pnl
        highest_price := highest }
  let p₂ :=
    if TRAILING_STOP_ACTIVATION_PCT ≤ gain_pct ∧ p.trailing_stop_active = false
    then
      { p₁ with
          trailing_stop_active := true
          trailing_stop_price :=
            some (current_price * (1 - TRAILING_STOP_DISTANCE_PCT)) }
    else p₁
  if p₂.trailing_stop_active then
    let new_stop_price := p₂.highest_price * (1 - TRAILING_STOP_DISTANCE_PCT)
    match p₂.trailing_stop_price with
    | some t =>
        if new_stop_price > t then
          { p₂ with trailing_stop_price := some new_stop_price }
        else p₂
    | none => { p₂ with trailing_stop_price := some new_stop_price }
  else p₂

/-- `PositionTracker.update_position` on the tracker state. -/
def update_position (s : State) (pair : String) (current_price : ℚ) : State :=
  match findPos s.positions pair with
  | none => s
  | some position =>
      { s with positions := setPos s.positions pair (updatePosition position current_price) }

/-- `PositionTracker.check_trailing_stop`.  The source tests the stored
stop price for Python truthiness (`None` and `0.0` are falsy). -/
def check_trailing_stop (s : State) (pair : String) (current_price : ℚ) :
    Bool :=
  match findPos s.positions pair with
  | none => false
  | some position =>
      if position.trailing_stop_active then
        match position.trailing_stop_price with
        | some t => if t ≠ 0 then decide (current_price ≤ t) else false
        | none => false
      else false

/-- The three ledger operations of the conservation law (the arguments to
`open_position`, `execute_tier_exit` and `close_position`). -/
inductive Op where
  | openPos (pair : String) (price : ℚ) (atr_value : Option ℚ)
  | tierExit (pair : String) (current_price : ℚ) (tier : Nat) (reason : String)
  | closePos (pair : String) (exit_price : ℚ) (reason : String)
  deriving DecidableEq

/-- State transition of one ledger operation (the returned flag / PnL is
discarded). -/
def step (s : State) : Op → State
  | Op.openPos pair price atr_value => (open_position s pair price atr_value).2
  | Op.tierExit pair current_price tier reason =>
      (execute_tier_exit s pair current_price tier reason).2
  | Op.closePos pair exit_price reason => (close_position s pair exit_price reason).2

/-- Run a sequence of ledger operations. -/
def run (s : State) : List Op → State
  | [] => s
  | op :: ops => run (step s op) ops

/-- Conservation law of the spec: cash plus the entry-price value of the
remaining open quantities equals the starting balance plus realized PnL. -/
def Conserved (s : State) : Prop :=
  s.cash_balance + entryValue s.positions = s.starting_balance + s.total_pnl

instance (s : State) : Decidable (Conserved s) := by
  unfold Conserved; infer_instance

/-- An operation is "safe" in a state when it does not overwrite an
existing position and does not dust-delete a nonzero residual:
`open_position` only on a pair with no open position, and a tier exit must
leave the position either above the `0.001` deletion threshold or with a
residual of zero entry value. -/
def safeOp (s : State) : Op → Bool
  | Op.openPos pair _ _ => (findPos s.positions pair).isNone
  | Op.tierExit pair _ tier _ =>
      match findPos s.positions pair with
      | none => true
      | some p =>
          if tier = 1 ∧ p.tier_1_sold = false then
            let rem := p.remaining_quantity - p.total_quantity * TIER_1_EXIT_PERCENTAGE
            decide (1/1000 < rem ∨ rem * p.entry_price = 0)
          else if tier = 2 ∧ p.tier_2_sold = false then
            let rem := p.remaining_quantity - p.total_quantity * TIER_2_EXIT_PERCENTAGE
            decide (1/1000 < rem ∨ rem * p.entry_price = 0)
          else true
  | Op.closePos _ _ _ => true

/-- A sequence of ledger operations is safe when each operation is safe in
the state it executes in. -/
def safeSeq : State → List Op → Bool
  | _, [] => true
  | s, op :: ops => safeOp s op && safeSeq (step s op) ops

/-- The position-map keys are pairwise distinct (true of every reachable
state, since insertion is erase-then-cons). -/
def NodupKeys (ps : List (String × Position)) : Prop :=
  (ps.map Prod.fst).Nodup

/-- A position's trailing-stop fields are consistent: a stop price is
stored exactly when the stop is active.  `open_position` creates positions
with `active = false, price = None` and `update_position` always sets the
two together, so every reachable position satisfies this. -/
def TrailingConsistent (p : Position) : Prop :=
  p.trailing_stop_price.isSome = p.trailing_stop_active

instance (p : Position) : Decidable (TrailingConsistent p) := by
  unfold TrailingConsistent; infer_instance

/-- Order on optional stop prices: "once set, never unset and never
lowered". -/
def stopLe : Option ℚ → Option ℚ → Bool
  | none, _ => true
  | some _, none => false
  | some t, some u => decide (t ≤ u)

/-- One `update_position` step may only raise `highest_price` and, once
set, only raise (never clear) `trailing_stop_price`. -/
def MonoStep (a b : Position) : Prop :=
  a.highest_price ≤ b.highest_price ∧
    stopLe a.trailing_stop_price b.trailing_stop_price = true

instance (a b : Position) : Decidable (MonoStep a b) := by
  unfold MonoStep; infer_instance

/-- The trace of positions produced by feeding a price sequence to
`update_position`, starting from `p`. -/
def updateSeq (p : Position) : List ℚ → List Position
  | [] => [p]
  | q :: qs => p :: updateSeq (updatePosition p q) qs

end Portfolio

namespace Bot

/-- Position dictionary of the `PositionTracker` in src/bot.py
(`timestamp` omitted; `tier_1_sold` / `tier_2_sold` here are the sold
quantities, the executed flags are separate). -/
structure Position where
  entry_price : ℚ
  original_quantity : ℚ
  current_quantity : ℚ
  tier_1_sold : ℚ
  tier_2_sold : ℚ
  tier_1_executed : Bool
  tier_2_executed : Bool
  highest_price : ℚ
  trailing_stop_price : Option ℚ
  unrealized_pnl : ℚ
  deriving DecidableEq

/-- Trade record of src/bot.py; BUY rows store empty strings in the
exit-price and PnL columns, modelled as `none` (timestamp and the
diagnostic `strategy_reason` string omitted). -/
structure Trade where
  pair : String
  action : String
  entry_price : ℚ
  exit_price : Option ℚ
  quantity : ℚ
  pnl_usd : Option ℚ
  pnl_percent : Option ℚ
  deriving DecidableEq

/-- Mutable state of the src/bot.py `PositionTracker`. -/
structure State where
  positions : List (String × Position)
  trade_history : List Trade
  total_pnl : ℚ
  cash_balance : ℚ
  starting_balance : ℚ
  deriving DecidableEq

/-- Fresh tracker state in simulation mode (`__init__` before any
Coinbase sync succeeds). -/
def initialState : State :=
  { positions := []
    trade_history := []
    total_pnl := 0
    cash_balance := STARTING_BALANCE_USD
    starting_balance := STARTING_BALANCE_USD }

/-- Dictionary lookup on the bot's position map. -/
def findPos : List (String × Position) → String → Option Position
  | [], _ => none
  | e :: l, k => if e.1 = k then some e.2 else findPos l k

/-- Dictionary deletion on the bot's position map. -/
def erasePair (ps : List (String × Position)) (k : String) :
    List (String × Position) :=
  ps.filter (fun e => !(e.1 = k : Bool))

/-- Dictionary assignment on the bot's position map. -/
def setPos (ps : List (String × Position)) (k : String) (v : Position) :
    List (String × Position) :=
  (k, v) :: erasePair ps k

/-- `PositionTracker.calculate_total_balance` in src/bot.py (no
current-price argument; values positions at entry price times the
remaining `current_quantity`). -/
def calculate_total_balance (s : State) : ℚ :=
  s.cash_balance +
    (s.positions.map (fun e => e.2.entry_price * e.2.current_quantity)).sum

/-- `PositionTracker.calculate_position_size` in src/bot.py — textually
the same algorithm as the portfolio.py variant over this tracker's
balance. -/
def calculate_position_size (s : State) (price : ℚ) (atr_value : Option ℚ) :
    ℚ × Portfolio.SizeReason :=
  let total_balance := calculate_total_balance s
  if s.positions.length ≥ MAX_POSITIONS then
    (0, Portfolio.SizeReason.maxPositionsReached)
  else
    let used_exposure := total_balance - s.cash_balance
    let available_exposure := MAX_EXPOSURE * total_balance - used_exposure
    let max_trade_usd := min available_exposure (MAX_PER_TRADE * total_balance)
    if max_trade_usd < MIN_TRADE_SIZE then
      (0, Portfolio.SizeReason.tradeTooSmall)
    else
      let max_trade_usd₁ :=
        if max_trade_usd > s.cash_balance then s.cash_balance else max_trade_usd
      let max_trade_usd₂ :=
        match atr_value with
        | none => max_trade_usd₁
        | some a =>
            if 0 < a then
              let stop_loss_pct := ATR_STOP_LOSS_MULTIPLIER * a / price
              if 0 < stop_loss_pct then
                let risk_usd := total_balance * RISK_PER_TRADE
                let risk_based_position_usd := risk_usd / stop_loss_pct
                min max_trade_usd₁ risk_based_position_usd
              else max_trade_usd₁
            else max_trade_usd₁
      (max_trade_usd₂ / price, Portfolio.SizeReason.sized)

/-- `PositionTracker.open_position` in src/bot.py: on success it creates
the position, debits cash, and appends exactly one BUY trade record. -/
def open_position (s : State) (pair : String) (price : ℚ)
    (atr_value : Option ℚ) : Bool × State :=
  let quantity := (calculate_position_size s price atr_value).1
  if quantity ≤ 0 then
    (false, s)
  else
    let trade_value := quantity * price
    if trade_value > s.cash_balance then
      (false, s)
    else
      let pos : Position :=
        { entry_price := price
          original_quantity := quantity
          current_quantity := quantity
          tier_1_sold := 0
          tier_2_sold := 0
          tier_1_executed := false
          tier_2_executed := false
          highest_price := price
          trailing_stop_price := none
          unrealized_pnl := 0 }
      let buy_trade : Trade :=
        { pair := pair
          action := "BUY"
          entry_price := price
          exit_price := none
          quantity := quantity
          pnl_usd := none
          pnl_percent := none }
      (true,
        { s with
            positions := setPos s.positions pair pos
            cash_balance := s.cash_balance - trade_value
            trade_history := s.trade_history ++ [buy_trade] })

/-- `PositionTracker.partial_close_position` in src/bot.py.  Note there is
no guard on the tier-executed flags: an already-executed tier label still
sells `original_quantity × percentage` again. -/
def partial_close_position (s : State) (pair : String) (exit_price : ℚ)
    (percentage : ℚ) (tier_name : String) (reason : String) : ℚ × State :=
  match findPos s.positions pair with
  | none => (0, s)
  | some position =>
      let entry_price := position.entry_price
      let current_quantity := position.current_quantity
      let original_quantity := position.original_quantity
      let sell_quantity₀ := original_quantity * percentage
      let sell_quantity :=
        if sell_quantity₀ > current_quantity then current_quantity
        else sell_quantity₀
      let sale_proceeds := exit_price * sell_quantity
      let pnl_usd := (exit_price - entry_price) * sell_quantity
      let trade : Trade :=
        { pair := pair
          action := reason ++ "_" ++ tier_name
          entry_price := entry_price
          exit_price := some exit_price
          quantity := sell_quantity
          pnl_usd := some pnl_usd
          pnl_percent := some ((exit_price - entry_price) / entry_price * 100) }
      let position₁ :=
        { position with current_quantity := position.current_quantity - sell_quantity }
      let position₂ :=
        if tier_name = "TIER_1" then
          { position₁ with tier_1_sold := sell_quantity, tier_1_executed := true }
        else if tier_name = "TIER_2" then
          { position₁ with tier_2_sold := sell_quantity, tier_2_executed := true }
        else position₁
      let positions₁ := setPos s.positions pair position₂
      let positions₂ :=
        if position₂.current_quantity ≤ 1/10000 then erasePair positions₁ pair
        else positions₁
      (pnl_usd,
        { s with
            positions := positions₂
            trade_history := s.trade_history ++ [trade]
            total_pnl := s.total_pnl + pnl_usd
            cash_balance := s.cash_balance + sale_proceeds })

/-- Quantity actually sold by `partial_close_position`: the requested
share of the original size, clamped to what remains. -/
def clampedSellQuantity (p : Position) (percentage : ℚ) : ℚ :=
  if p.original_quantity * percentage > p.current_quantity
  then p.current_quantity
  else p.original_quantity * percentage

end Bot

namespace Strategy

open Portfolio

/-- `get_dynamic_targets` of src/indicators.py: `(None, None)` unless a
positive ATR is supplied (`not atr_value or atr_value <= 0`), otherwise
entry plus 2×ATR and 4×ATR. -/
def get_dynamic_targets (current_price : ℚ) (atr_value : Option ℚ) :
    Option ℚ × Option ℚ :=
  match atr_value with
  | none => (none, none)
  | some a =>
      if a ≤ 0 then (none, none)
      else
        (some (current_price + ATR_DYNAMIC_TP1_MULTIPLIER * a),
         some (current_price + ATR_DYNAMIC_TP2_MULTIPLIER * a))

/-- `enhanced_should_sell` of src/trading_strategy.py, parametrised by the
indicator outputs (`calculate_all_indicators` is external numeric code out
of the engine's scope) and by the candle count used in the data-sufficiency
guard.  Returns the (sell?, action) pair and the tracker state after the
in-place `update_position` call; the third returned value of the source, a
formatted diagnostic string, is omitted.  Python truthiness of the
indicator values (`None` and `0` falsy) is modelled explicitly. -/
def enhanced_should_sell (current_rsi current_atr : Option ℚ)
    (candle_count : Nat) (current_price entry_price : ℚ)
    (s : State) (pair : String) : (Bool × String) × State :=
  if candle_count < 15 then ((false, "HOLD"), s)
  else
    match findPos s.positions pair with
    | none => ((false, "HOLD"), s)
    | some _ =>
        let s' := update_position s pair current_price
        match findPos s'.positions pair with
        | none => ((false, "HOLD"), s')
        | some position =>
            let targets := get_dynamic_targets entry_price current_atr
            let tp1_price := targets.1
            let tp2_price := targets.2
            let rsiOverbought :=
              match current_rsi with
              | none => false
              | some r => decide (r ≠ 0) && decide (r > RSI_OVERBOUGHT_THRESHOLD)
            if rsiOverbought then ((true, "SELL (RSI)"), s')
            else
              let atrStopHit :=
                match current_atr with
                | none => false
                | some a =>
                    decide (a ≠ 0) && decide (entry_price ≠ 0) &&
                      decide (current_price ≤
                        entry_price - ATR_STOP_LOSS_MULTIPLIER * a)
              if atrStopHit then ((true, "SELL (ATR STOP)"), s')
              else if check_trailing_stop s' pair current_price then
                ((true, "SELL (TRAILING STOP)"), s')
              else
                let tier1Hit :=
                  match tp1_price with
                  | none => false
                  | some t =>
                      decide (t ≠ 0) && !position.tier_1_sold &&
                        decide (current_price ≥ t)
                if tier1Hit then ((true, "TIER_1_EXIT"), s')
                else
                  let tier2Hit :=
                    match tp2_price with
                    | none => false
                    | some t =>
                        decide (t ≠ 0) && !position.tier_2_sold &&
                          decide (current_price ≥ t)
                  if tier2Hit then ((true, "TIER_2_EXIT"), s')
                  else ((false, "HOLD"), s')

/-- Trailing-stop trigger on a single position: the stop is active and the
current price is at or below its (nonzero) stop price. -/
def trailingTriggered (p : Position) (current_price : ℚ) : Bool :=
  p.trailing_stop_active &&
    match p.trailing_stop_price with
    | some t => decide (t ≠ 0) && decide (current_price ≤ t)
    | none => false

/-- Decision order actually implemented by `enhanced_should_sell`, written
against the updated position `p` (the amended claim): RSI overbought,
then ATR hard stop, then trailing stop, then tier 1, then tier 2, else
HOLD. -/
def sellSpecDecision (r a : ℚ) (current_price entry_price : ℚ)
    (p : Position) : Bool × String :=
  if r > RSI_OVERBOUGHT_THRESHOLD then (true, "SELL (RSI)")
  else if current_price ≤ entry_price - ATR_STOP_LOSS_MULTIPLIER * a then
    (true, "SELL (ATR STOP)")
  else if trailingTriggered p current_price then
    (true, "SELL (TRAILING STOP)")
  else if p.tier_1_sold = false ∧
      current_price ≥ entry_price + ATR_DYNAMIC_TP1_MULTIPLIER * a then
    (true, "TIER_1_EXIT")
  else if p.tier_2_sold = false ∧
      current_price ≥ entry_price + ATR_DYNAMIC_TP2_MULTIPLIER * a then
    (true, "TIER_2_EXIT")
  else (false, "HOLD")

end Strategy

/-! ### Association-list lemmas for the portfolio position map -/

namespace Portfolio

theorem not_mem_keys_erasePair (ps : List (String × Position)) (k : String) :
    k ∉ (erasePair ps k).map Prod.fst := by
  induction ps with
  | nil => simp [erasePair]
  | cons e l ih =>
      by_cases h : e.1 = k
      · simpa [erasePair, List.filter_cons, h] using ih
      · simp only [erasePair, List.filter_cons, h] at ih ⊢
        simp [List.map_cons, ih, Ne.symm h, h]

theorem erasePair_of_findPos_none (ps : List (String × Position)) (k : String)
    (h : findPos ps k = none) : erasePair ps k = ps := by
  induction ps with
  | nil => rfl
  | cons e l ih =>
      by_cases he : e.1 = k
      · simp [findPos, he] at h
      · simp only [findPos, he, if_false] at h
        simp [erasePair, he, List.filter_cons]
        simpa [erasePair] using ih h

theorem findPos_setPos_self (ps : List (String × Position)) (k : String)
    (v : Position) : findPos (setPos ps k v) k = some v := by
  simp [setPos, findPos]

theorem findPos_erasePair_ne (ps : List (String × Position)) (k k' : String)
    (h : k' ≠ k) : findPos (erasePair ps k) k' = findPos ps k' := by
  induction ps with
  | nil => rfl
  | cons e l ih =>
      simp only [erasePair, List.filter_cons] at ih ⊢
      by_cases he : e.1 = k
      · have he' : ¬(e.1 = k') := by rw [he]; exact Ne.symm h
        simp [he, findPos, he', ih, h, h.symm]
      · by_cases he2 : e.1 = k'
        · simp [he, findPos, he2, h, h.symm]
        · simp [he, findPos, he2, ih, h, h.symm]

theorem findPos_setPos_ne (ps : List (String × Position)) (k k' : String)
    (v : Position) (h : k' ≠ k) :
    findPos (setPos ps k v) k' = findPos ps k' := by
  have hk : ¬(k = k') := fun h' => h h'.symm
  simp only [setPos, findPos, hk, if_false]
  exact findPos_erasePair_ne ps k k' h

theorem erasePair_of_not_mem_keys (ps : List (String × Position)) (k : String)
    (h : k ∉ ps.map Prod.fst) : erasePair ps k = ps := by
  induction ps with
  | nil => rfl
  | cons e l ih =>
      simp only [List.map_cons, List.mem_cons, not_or] at h
      have he : ¬(e.1 = k) := fun h' => h.1 h'.symm
      have hil := ih h.2
      simp only [erasePair, List.filter_cons] at hil ⊢
      simp [he, hil]

theorem erasePair_erasePair (ps : List (String × Position)) (k : String) :
    erasePair (erasePair ps k) k = erasePair ps k :=
  erasePair_of_not_mem_keys _ k (not_mem_keys_erasePair ps k)

theorem entryValue_setPos (ps : List (String × Position)) (k : String)
    (v : Position) :
    entryValue (setPos ps k v) =
      v.remaining_quantity * v.entry_price + entryValue (erasePair ps k) := rfl

theorem entryValue_of_findPos (ps : List (String × Position)) (k : String)
    (v : Position) (hn : NodupKeys ps) (h : findPos ps k = some v) :
    entryValue ps =
      v.remaining_quantity * v.entry_price + entryValue (erasePair ps k) := by
  induction ps with
  | nil => simp [findPos] at h
  | cons e l ih =>
      simp only [NodupKeys, List.map_cons, List.nodup_cons] at hn
      by_cases he : e.1 = k
      · simp only [findPos, he, if_true, Option.some.injEq] at h
        have hkl : k ∉ l.map Prod.fst := he ▸ hn.1
        have herase : erasePair l k = l := erasePair_of_not_mem_keys l k hkl
        simp only [erasePair, List.filter_cons] at herase ⊢
        rw [show (!decide (e.1 = k)) = false by simp [he]]
        simp only [Bool.false_eq_true, if_false, herase]
        simp [entryValue, ← h]
      · simp only [findPos, he, if_false] at h
        have hil := ih hn.2 h
        simp only [erasePair, List.filter_cons] at hil ⊢
        rw [show (!decide (e.1 = k)) = true by simp [he]]
        simp only [if_true]
        simp only [entryValue, hil]
        ring

theorem nodupKeys_erasePair (ps : List (String × Position)) (k : String)
    (hn : NodupKeys ps) : NodupKeys (erasePair ps k) := by
  have hs : List.Sublist (erasePair ps k) ps := List.filter_sublist ps
  exact (hs.map Prod.fst).nodup hn

theorem nodupKeys_setPos (ps : List (String × Position)) (k : String)
    (v : Position) (hn : NodupKeys ps) : NodupKeys (setPos ps k v) := by
  simp only [setPos, NodupKeys, List.map_cons, List.nodup_cons]
  exact ⟨not_mem_keys_erasePair ps k, nodupKeys_erasePair ps k hn⟩

theorem erasePair_setPos_self (ps : List (String × Position)) (k : String)
    (v : Position) : erasePair (setPos ps k v) k = erasePair ps k := by
  have h := erasePair_erasePair ps k
  simp only [erasePair] at h
  simp [setPos, erasePair, List.filter_cons, h]

theorem conserved_tierExitFinish (s : State) (pair : String)
    (current_price : ℚ) (reason : String) (p p₁ : Position) (sq : ℚ)
    (lbl : String) (hn : NodupKeys s.positions) (hc : Conserved s)
    (hfind : findPos s.positions pair = some p)
    (hrem : p₁.remaining_quantity = p.remaining_quantity)
    (hent : p₁.entry_price = p.entry_price)
    (hsafe : 1/1000 < p.remaining_quantity - sq ∨
      (p.remaining_quantity - sq) * p.entry_price = 0) :
    Conserved (tierExitFinish s pair current_price reason p₁ sq lbl).2 := by
  have hE := entryValue_of_findPos s.positions pair p hn hfind
  have hA : entryValue
      (setPos s.positions pair
        { p₁ with remaining_quantity := p₁.remaining_quantity - sq }) =
      (p₁.remaining_quantity - sq) * p₁.entry_price +
        entryValue (erasePair s.positions pair) :=
    entryValue_setPos s.positions pair _
  have hB : entryValue
      (erasePair
        (setPos s.positions pair
          { p₁ with remaining_quantity := p₁.remaining_quantity - sq }) pair) =
      entryValue (erasePair s.positions pair) := by
    rw [erasePair_setPos_self]
  unfold Conserved at hc ⊢
  simp only [tierExitFinish]
  split_ifs with hdel
  · simp only at hdel
    have hz : (p.remaining_quantity - sq) * p.entry_price = 0 := by
      rcases hsafe with h | h
      · exfalso
        rw [hrem] at hdel
        linarith
      · exact h
    simp only [hB]
    linear_combination hc - hE - hz + sq * hent
  · simp only [hA]
    linear_combination hc - hE + p₁.entry_price * hrem + p.remaining_quantity * hent

theorem nodupKeys_step (s : State) (op : Op) (hn : NodupKeys s.positions) :
    NodupKeys (step s op).positions := by
  cases op with
  | openPos pair price atr_value =>
      simp only [step, open_position]
      split_ifs
      · exact hn
      · exact hn
      · exact nodupKeys_setPos _ _ _ hn
  | tierExit pair current_price tier reason =>
      simp only [step, execute_tier_exit]
      cases hf : findPos s.positions pair with
      | none => exact hn
      | some p =>
          dsimp only
          split_ifs
          · simp only [tierExitFinish]
            split_ifs
            · exact nodupKeys_erasePair _ _ (nodupKeys_setPos _ _ _ hn)
            · exact nodupKeys_setPos _ _ _ hn
          · simp only [tierExitFinish]
            split_ifs
            · exact nodupKeys_erasePair _ _ (nodupKeys_setPos _ _ _ hn)
            · exact nodupKeys_setPos _ _ _ hn
          · exact hn
  | closePos pair exit_price reason =>
      simp only [step, close_position]
      cases hf : findPos s.positions pair with
      | none => exact hn
      | some p => exact nodupKeys_erasePair _ _ hn

theorem conserved_step (s : State) (op : Op) (hn : NodupKeys s.positions)
    (hc : Conserved s) (hs : safeOp s op = true) : Conserved (step s op) := by
  cases op with
  | openPos pair price atr_value =>
      simp only [safeOp, Option.isNone_iff_eq_none] at hs
      have herase := erasePair_of_findPos_none s.positions pair hs
      simp only [step, open_position]
      split_ifs
      · exact hc
      · exact hc
      · unfold Conserved at hc ⊢
        rw [entryValue_setPos, herase]
        simp only []
        linear_combination hc
  | tierExit pair current_price tier reason =>
      simp only [step, execute_tier_exit]
      simp only [safeOp] at hs
      cases hf : findPos s.positions pair with
      | none => exact hc
      | some p =>
          rw [hf] at hs
          dsimp only at hs ⊢
          by_cases h1 : tier = 1 ∧ p.tier_1_sold = false
          · rw [if_pos h1] at hs ⊢
            simp only [decide_eq_true_eq] at hs
            exact conserved_tierExitFinish s pair current_price reason p
              { p with tier_1_sold := true }
              (p.total_quantity * TIER_1_EXIT_PERCENTAGE) "TIER_1_EXIT"
              hn hc hf rfl rfl hs
          · rw [if_neg h1] at hs ⊢
            by_cases h2 : tier = 2 ∧ p.tier_2_sold = false
            · rw [if_pos h2] at hs ⊢
              simp only [decide_eq_true_eq] at hs
              exact conserved_tierExitFinish s pair current_price reason p
                { p with tier_2_sold := true }
                (p.total_quantity * TIER_2_EXIT_PERCENTAGE) "TIER_2_EXIT"
                hn hc hf rfl rfl hs
            · rw [if_neg h2]
              exact hc
  | closePos pair exit_price reason =>
      simp only [step, close_position]
      cases hf : findPos s.positions pair with
      | none => exact hc
      | some p =>
          have hE := entryValue_of_findPos s.positions pair p hn hf
          unfold Conserved at hc ⊢
          simp only [hE]
          linear_combination hc - hE

theorem safeSeq_append (l₁ l₂ : List Op) :
    ∀ s : State, safeSeq s (l₁ ++ l₂) = true → safeSeq s l₁ = true := by
  induction l₁ with
  | nil => intro s _; rfl
  | cons op ops ih =>
      intro s h
      simp only [List.cons_append, safeSeq, Bool.and_eq_true] at h ⊢
      exact ⟨h.1, ih _ h.2⟩

theorem conserved_run (ops : List Op) :
    ∀ s : State, NodupKeys s.positions → Conserved s →
      safeSeq s ops = true → Conserved (run s ops) := by
  induction ops with
  | nil => intro s _ hc _; exact hc
  | cons op ops ih =>
      intro s hn hc h
      simp only [safeSeq, Bool.and_eq_true] at h
      exact ih (step s op) (nodupKeys_step s op hn)
        (conserved_step s op hn hc h.1) h.2

end Portfolio

/-! ### Claim theorems -/

open Portfolio Strategy

/-- Claim C1, counterexample: the conservation equation does not hold for
every operation sequence — re-opening a pair that already has an open
position discards the old position's value without crediting cash.  After
`open A; open A` from the initial state, cash is 500 and the open value
250, but starting balance plus realized PnL is 1000. -/
theorem C1_conservation_counterexample :
    ¬ Conserved (run initialState
      [Op.openPos "A" 10 none, Op.openPos "A" 10 none]) := by
  norm_num [STARTING_BALANCE_USD, MAX_POSITIONS, MAX_EXPOSURE, MAX_PER_TRADE,
    MIN_TRADE_SIZE, RISK_PER_TRADE, TIER_1_EXIT_PERCENTAGE,
    TIER_2_EXIT_PERCENTAGE, TRAILING_STOP_ACTIVATION_PCT,
    TRAILING_STOP_DISTANCE_PCT, ATR_STOP_LOSS_MULTIPLIER,
    ATR_DYNAMIC_TP1_MULTIPLIER, ATR_DYNAMIC_TP2_MULTIPLIER,
    RSI_OVERBOUGHT_THRESHOLD, Portfolio.initialState, Portfolio.findPos,
    Portfolio.erasePair, Portfolio.setPos, Portfolio.entryValue,
    Portfolio.calculate_total_balance, Portfolio.calculate_position_size,
    Portfolio.open_position, Portfolio.tierExitFinish,
    Portfolio.execute_tier_exit, Portfolio.close_position,
    Portfolio.updatePosition, Portfolio.update_position,
    Portfolio.check_trailing_stop, Portfolio.step, Portfolio.run,
    Portfolio.Conserved, Portfolio.safeOp, Portfolio.safeSeq,
    Portfolio.NodupKeys, Portfolio.TrailingConsistent, Portfolio.stopLe,
    Portfolio.MonoStep, Portfolio.updateSeq, min_def]

/-- Claim C1, amended: the conservation equation
`cash_balance + Σ remaining_quantity × entry_price = starting_balance +
total_pnl` holds after each operation of any sequence of `open_position`,
`execute_tier_exit` and `close_position` from the initial state, provided
each `open_position` targets a pair with no open position and no tier exit
dust-deletes a residual of nonzero entry value (`safeSeq`). -/
theorem C1_conservation_amended (ops pre suf : List Op)
    (hsplit : ops = pre ++ suf)
    (hsafe : safeSeq initialState ops = true) :
    Conserved (run initialState pre) := by
  subst hsplit
  exact conserved_run pre initialState (by simp [initialState, NodupKeys])
    (by norm_num [Conserved, initialState, entryValue])
    (safeSeq_append pre suf initialState hsafe)

/-- Claim C1, witness: a concrete safe open / tier-exit / close sequence
satisfying the amended theorem's hypotheses, with conservation after its
first two operations. -/
theorem C1_conservation_amended_witness :
    safeSeq initialState
        [Op.openPos "A" 10 none, Op.tierExit "A" 12 1 "tp1",
         Op.closePos "A" 9 "stop"] = true ∧
      Conserved (run initialState
        [Op.openPos "A" 10 none, Op.tierExit "A" 12 1 "tp1"]) :=
  ⟨by norm_num [STARTING_BALANCE_USD, MAX_POSITIONS, MAX_EXPOSURE, MAX_PER_TRADE,
    MIN_TRADE_SIZE, RISK_PER_TRADE, TIER_1_EXIT_PERCENTAGE,
    TIER_2_EXIT_PERCENTAGE, TRAILING_STOP_ACTIVATION_PCT,
    TRAILING_STOP_DISTANCE_PCT, ATR_STOP_LOSS_MULTIPLIER,
    ATR_DYNAMIC_TP1_MULTIPLIER, ATR_DYNAMIC_TP2_MULTIPLIER,
    RSI_OVERBOUGHT_THRESHOLD, Portfolio.initialState, Portfolio.findPos,
    Portfolio.erasePair, Portfolio.setPos, Portfolio.entryValue,
    Portfolio.calculate_total_balance, Portfolio.calculate_position_size,
    Portfolio.open_position, Portfolio.tierExitFinish,
    Portfolio.execute_tier_exit, Portfolio.close_position,
    Portfolio.updatePosition, Portfolio.update_position,
    Portfolio.check_trailing_stop, Portfolio.step, Portfolio.run,
    Portfolio.Conserved, Portfolio.safeOp, Portfolio.safeSeq,
    Portfolio.NodupKeys, Portfolio.TrailingConsistent, Portfolio.stopLe,
    Portfolio.MonoStep, Portfolio.updateSeq, min_def],
    C1_conservation_amended
      [Op.openPos "A" 10 none, Op.tierExit "A" 12 1 "tp1",
       Op.closePos "A" 9 "stop"]
      [Op.openPos "A" 10 none, Op.tierExit "A" 12 1 "tp1"]
      [Op.closePos "A" 9 "stop"] rfl
      (by norm_num [STARTING_BALANCE_USD, MAX_POSITIONS, MAX_EXPOSURE, MAX_PER_TRADE,
    MIN_TRADE_SIZE, RISK_PER_TRADE, TIER_1_EXIT_PERCENTAGE,
    TIER_2_EXIT_PERCENTAGE, TRAILING_STOP_ACTIVATION_PCT,
    TRAILING_STOP_DISTANCE_PCT, ATR_STOP_LOSS_MULTIPLIER,
    ATR_DYNAMIC_TP1_MULTIPLIER, ATR_DYNAMIC_TP2_MULTIPLIER,
    RSI_OVERBOUGHT_THRESHOLD, Portfolio.initialState, Portfolio.findPos,
    Portfolio.erasePair, Portfolio.setPos, Portfolio.entryValue,
    Portfolio.calculate_total_balance, Portfolio.calculate_position_size,
    Portfolio.open_position, Portfolio.tierExitFinish,
    Portfolio.execute_tier_exit, Portfolio.close_position,
    Portfolio.updatePosition, Portfolio.update_position,
    Portfolio.check_trailing_stop, Portfolio.step, Portfolio.run,
    Portfolio.Conserved, Portfolio.safeOp, Portfolio.safeSeq,
    Portfolio.NodupKeys, Portfolio.TrailingConsistent, Portfolio.stopLe,
    Portfolio.MonoStep, Portfolio.updateSeq, min_def])⟩

/-- Claim C2 (code bug): at a ledger holding cash 840 and one position
with entry price 10, total_quantity 25 and remaining_quantity 17.5,
`calculate_total_balance` returns 840 + 10×25 = 1090 — it multiplies by
`total_quantity` — both without a price map and with an empty one, whereas
the spec's formula `cash + Σ remaining_quantity × price` gives 1015. -/
theorem C2_total_balance_code_divergence :
    (calculate_total_balance
        { positions :=
            [("BTC-USD", ⟨10, 25, 35/2, 250, 250, 0, 12, true, false, false, none⟩)]
          trade_history := []
          total_pnl := 15
          cash_balance := 840
          starting_balance := 1000 } none = 1090) ∧
      (calculate_total_balance
        { positions :=
            [("BTC-USD", ⟨10, 25, 35/2, 250, 250, 0, 12, true, false, false, none⟩)]
          trade_history := []
          total_pnl := 15
          cash_balance := 840
          starting_balance := 1000 } (some fun _ => none) = 1090) ∧
      ((840 : ℚ) + entryValue
        [("BTC-USD", ⟨10, 25, 35/2, 250, 250, 0, 12, true, false, false, none⟩)]
          = 1015) ∧
      (1090 : ℚ) ≠ 1015 := by
  norm_num [STARTING_BALANCE_USD, MAX_POSITIONS, MAX_EXPOSURE, MAX_PER_TRADE,
    MIN_TRADE_SIZE, RISK_PER_TRADE, TIER_1_EXIT_PERCENTAGE,
    TIER_2_EXIT_PERCENTAGE, TRAILING_STOP_ACTIVATION_PCT,
    TRAILING_STOP_DISTANCE_PCT, ATR_STOP_LOSS_MULTIPLIER,
    ATR_DYNAMIC_TP1_MULTIPLIER, ATR_DYNAMIC_TP2_MULTIPLIER,
    RSI_OVERBOUGHT_THRESHOLD, Portfolio.initialState, Portfolio.findPos,
    Portfolio.erasePair, Portfolio.setPos, Portfolio.entryValue,
    Portfolio.calculate_total_balance, Portfolio.calculate_position_size,
    Portfolio.open_position, Portfolio.tierExitFinish,
    Portfolio.execute_tier_exit, Portfolio.close_position,
    Portfolio.updatePosition, Portfolio.update_position,
    Portfolio.check_trailing_stop, Portfolio.step, Portfolio.run,
    Portfolio.Conserved, Portfolio.safeOp, Portfolio.safeSeq,
    Portfolio.NodupKeys, Portfolio.TrailingConsistent, Portfolio.stopLe,
    Portfolio.MonoStep, Portfolio.updateSeq, min_def]

/-- Claim C6: the spec's scenario, exactly, from the initial $1000 state:
open at 10 sizes to 25 units leaving cash 750; tier-1 exit at 12 realizes
15, cash 840, remaining 17.5, tier flag set; full close at 9 realizes
−17.5, cash 997.5, position deleted, total PnL −2.5. -/
theorem C6_scenario :
    (open_position initialState "BTC-USD" 10 none).1 = true ∧
    (open_position initialState "BTC-USD" 10 none).2.cash_balance = 750 ∧
    (findPos (open_position initialState "BTC-USD" 10 none).2.positions
        "BTC-USD").map
      (fun p => (p.entry_price, p.total_quantity, p.remaining_quantity))
      = some (10, 25, 25) ∧
    (execute_tier_exit (open_position initialState "BTC-USD" 10 none).2
        "BTC-USD" 12 1 "tp1").1 = 15 ∧
    (execute_tier_exit (open_position initialState "BTC-USD" 10 none).2
        "BTC-USD" 12 1 "tp1").2.cash_balance = 840 ∧
    (findPos (execute_tier_exit (open_position initialState "BTC-USD" 10 none).2
        "BTC-USD" 12 1 "tp1").2.positions "BTC-USD").map
      (fun p => (p.remaining_quantity, p.tier_1_sold)) = some (35/2, true) ∧
    (close_position (execute_tier_exit
        (open_position initialState "BTC-USD" 10 none).2
        "BTC-USD" 12 1 "tp1").2 "BTC-USD" 9 "stop").1 = -35/2 ∧
    (close_position (execute_tier_exit
        (open_position initialState "BTC-USD" 10 none).2
        "BTC-USD" 12 1 "tp1").2 "BTC-USD" 9 "stop").2.cash_balance = 1995/2 ∧
    (close_position (execute_tier_exit
        (open_position initialState "BTC-USD" 10 none).2
        "BTC-USD" 12 1 "tp1").2 "BTC-USD" 9 "stop").2.positions = [] ∧
    (close_position (execute_tier_exit
        (open_position initialState "BTC-USD" 10 none).2
        "BTC-USD" 12 1 "tp1").2 "BTC-USD" 9 "stop").2.total_pnl = -5/2 := by
  norm_num [STARTING_BALANCE_USD, MAX_POSITIONS, MAX_EXPOSURE, MAX_PER_TRADE,
    MIN_TRADE_SIZE, RISK_PER_TRADE, TIER_1_EXIT_PERCENTAGE,
    TIER_2_EXIT_PERCENTAGE, TRAILING_STOP_ACTIVATION_PCT,
    TRAILING_STOP_DISTANCE_PCT, ATR_STOP_LOSS_MULTIPLIER,
    ATR_DYNAMIC_TP1_MULTIPLIER, ATR_DYNAMIC_TP2_MULTIPLIER,
    RSI_OVERBOUGHT_THRESHOLD, Portfolio.initialState, Portfolio.findPos,
    Portfolio.erasePair, Portfolio.setPos, Portfolio.entryValue,
    Portfolio.calculate_total_balance, Portfolio.calculate_position_size,
    Portfolio.open_position, Portfolio.tierExitFinish,
    Portfolio.execute_tier_exit, Portfolio.close_position,
    Portfolio.updatePosition, Portfolio.update_position,
    Portfolio.check_trailing_stop, Portfolio.step, Portfolio.run,
    Portfolio.Conserved, Portfolio.safeOp, Portfolio.safeSeq,
    Portfolio.NodupKeys, Portfolio.TrailingConsistent, Portfolio.stopLe,
    Portfolio.MonoStep, Portfolio.updateSeq, min_def]

/-- Claim C9: from the reachable state obtained by opening BTC-USD at 10
(one open position, fewer than `MAX_POSITIONS`), a second `open_position`
for the same pair succeeds, debits cash again (750 → 500), and replaces
the stored position by a fresh one with cleared tier and trailing state —
the 25 discarded units are never credited (no trade record, PnL 0). -/
theorem C9_reopen_overwrites :
    ((findPos (open_position initialState "BTC-USD" 10 none).2.positions
        "BTC-USD").isSome = true) ∧
    ((open_position initialState "BTC-USD" 10 none).2.positions.length
        < MAX_POSITIONS) ∧
    ((open_position (open_position initialState "BTC-USD" 10 none).2
        "BTC-USD" 10 none).1 = true) ∧
    ((open_position (open_position initialState "BTC-USD" 10 none).2
        "BTC-USD" 10 none).2.cash_balance = 500) ∧
    (findPos (open_position (open_position initialState "BTC-USD" 10 none).2
        "BTC-USD" 10 none).2.positions "BTC-USD"
      = some ⟨10, 25, 25, 250, 250, 0, 10, false, false, false, none⟩) ∧
    ((open_position (open_position initialState "BTC-USD" 10 none).2
        "BTC-USD" 10 none).2.trade_history = []) ∧
    ((open_position (open_position initialState "BTC-USD" 10 none).2
        "BTC-USD" 10 none).2.total_pnl = 0) := by
  norm_num [STARTING_BALANCE_USD, MAX_POSITIONS, MAX_EXPOSURE, MAX_PER_TRADE,
    MIN_TRADE_SIZE, RISK_PER_TRADE, TIER_1_EXIT_PERCENTAGE,
    TIER_2_EXIT_PERCENTAGE, TRAILING_STOP_ACTIVATION_PCT,
    TRAILING_STOP_DISTANCE_PCT, ATR_STOP_LOSS_MULTIPLIER,
    ATR_DYNAMIC_TP1_MULTIPLIER, ATR_DYNAMIC_TP2_MULTIPLIER,
    RSI_OVERBOUGHT_THRESHOLD, Portfolio.initialState, Portfolio.findPos,
    Portfolio.erasePair, Portfolio.setPos, Portfolio.entryValue,
    Portfolio.calculate_total_balance, Portfolio.calculate_position_size,
    Portfolio.open_position, Portfolio.tierExitFinish,
    Portfolio.execute_tier_exit, Portfolio.close_position,
    Portfolio.updatePosition, Portfolio.update_position,
    Portfolio.check_trailing_stop, Portfolio.step, Portfolio.run,
    Portfolio.Conserved, Portfolio.safeOp, Portfolio.safeSeq,
    Portfolio.NodupKeys, Portfolio.TrailingConsistent, Portfolio.stopLe,
    Portfolio.MonoStep, Portfolio.updateSeq, min_def]

/-- Claim C5: tier exits are at-most-once — if the position's tier flag is
already set, `execute_tier_exit` for that tier returns 0 PnL and the whole
ledger state (cash, total PnL, positions, trade history) is unchanged. -/
theorem C5_tier_exit_at_most_once (s : Portfolio.State) (pair : String)
    (current_price : ℚ) (reason : String) (p : Portfolio.Position)
    (hp : findPos s.positions pair = some p) :
    (p.tier_1_sold = true →
      execute_tier_exit s pair current_price 1 reason = (0, s)) ∧
    (p.tier_2_sold = true →
      execute_tier_exit s pair current_price 2 reason = (0, s)) := by
  constructor
  · intro h1
    simp [execute_tier_exit, hp, h1]
  · intro h2
    simp [execute_tier_exit, hp, h2]

/-- Claim C5, witness: concrete no-op tier exits on a position whose two
tier flags are set. -/
theorem C5_tier_exit_at_most_once_witness :
    (execute_tier_exit
        { positions :=
            [("BTC-USD", ⟨10, 25, 10, 250, 250, 0, 12, true, true, false, none⟩)]
          trade_history := []
          total_pnl := 0
          cash_balance := 850
          starting_balance := 1000 } "BTC-USD" 12 1 "again" =
      (0,
        { positions :=
            [("BTC-USD", ⟨10, 25, 10, 250, 250, 0, 12, true, true, false, none⟩)]
          trade_history := []
          total_pnl := 0
          cash_balance := 850
          starting_balance := 1000 })) ∧
    (execute_tier_exit
        { positions :=
            [("BTC-USD", ⟨10, 25, 10, 250, 250, 0, 12, true, true, false, none⟩)]
          trade_history := []
          total_pnl := 0
          cash_balance := 850
          starting_balance := 1000 } "BTC-USD" 12 2 "again" =
      (0,
        { positions :=
            [("BTC-USD", ⟨10, 25, 10, 250, 250, 0, 12, true, true, false, none⟩)]
          trade_history := []
          total_pnl := 0
          cash_balance := 850
          starting_balance := 1000 })) :=
  ⟨(C5_tier_exit_at_most_once _ "BTC-USD" 12 "again"
      ⟨10, 25, 10, 250, 250, 0, 12, true, true, false, none⟩
      (by simp [findPos])).1 rfl,
   (C5_tier_exit_at_most_once _ "BTC-USD" 12 "again"
      ⟨10, 25, 10, 250, 250, 0, 12, true, true, false, none⟩
      (by simp [findPos])).2 rfl⟩

/-- Claim C8: for every ledger state with nonnegative cash, positive price
and arbitrary ATR input, the sized quantity is nonnegative and its cost
never exceeds the available cash. -/
theorem C8_sizing_cash_bound (s : Portfolio.State) (price : ℚ)
    (atr_value : Option ℚ) (hcash : 0 ≤ s.cash_balance)
    (hprice : 0 < price) :
    0 ≤ (calculate_position_size s price atr_value).1 ∧
    (calculate_position_size s price atr_value).1 * price ≤ s.cash_balance := by
  unfold calculate_position_size
  by_cases h1 : s.positions.length ≥ MAX_POSITIONS
  · simp only [h1, if_true]
    constructor
    · exact le_refl 0
    · simpa using hcash
  · simp only [h1, if_false]
    set T := calculate_total_balance s none with hT
    set M := min (MAX_EXPOSURE * T - (T - s.cash_balance)) (MAX_PER_TRADE * T)
      with hM
    by_cases h2 : M < MIN_TRADE_SIZE
    · simp only [h2, if_true]
      constructor
      · exact le_refl 0
      · simpa using hcash
    · simp only [h2, if_false]
      push_neg at h2
      have hM50 : (50 : ℚ) ≤ M := by simpa [MIN_TRADE_SIZE] using h2
      have hTpos : (0 : ℚ) ≤ T := by
        have h4 : M ≤ MAX_PER_TRADE * T := min_le_right _ _
        have : (50 : ℚ) ≤ MAX_PER_TRADE * T := le_trans hM50 h4
        rw [MAX_PER_TRADE] at this
        linarith
      set M₁ := if M > s.cash_balance then s.cash_balance else M with hM₁
      have hM₁cash : M₁ ≤ s.cash_balance := by
        rw [hM₁]
        split_ifs with h3
        · exact le_refl _
        · push_neg at h3
          exact h3
      have hM₁pos : (0 : ℚ) ≤ M₁ := by
        rw [hM₁]
        split_ifs with h3
        · exact hcash
        · linarith
      have key : ∀ M₂ : ℚ, 0 ≤ M₂ → M₂ ≤ s.cash_balance →
          0 ≤ M₂ / price ∧ M₂ / price * price ≤ s.cash_balance := by
        intro M₂ hpos hle
        constructor
        · exact div_nonneg hpos (le_of_lt hprice)
        · rw [div_mul_cancel₀ M₂ (ne_of_gt hprice)]
          exact hle
      cases atr_value with
      | none => exact key M₁ hM₁pos hM₁cash
      | some a =>
          by_cases ha : 0 < a
          · simp only [ha, if_true]
            by_cases hs : 0 < ATR_STOP_LOSS_MULTIPLIER * a / price
            · simp only [hs, if_true]
              have hrisk : 0 ≤ T * RISK_PER_TRADE / (ATR_STOP_LOSS_MULTIPLIER * a / price) := by
                apply div_nonneg
                · rw [RISK_PER_TRADE]
                  linarith
                · exact le_of_lt hs
              refine key _ (le_min hM₁pos hrisk) (le_trans (min_le_left _ _) hM₁cash)
            · simp only [hs, if_false]
              exact key M₁ hM₁pos hM₁cash
          · simp only [ha, if_false]
            exact key M₁ hM₁pos hM₁cash

/-- Claim C8, witness: at the initial state with price 10 and ATR 2 the
sized quantity is nonnegative and costs at most the cash balance. -/
theorem C8_sizing_cash_bound_witness :
    (0 : ℚ) ≤ Portfolio.initialState.cash_balance ∧ (0 : ℚ) < 10 ∧
    (0 ≤ (calculate_position_size Portfolio.initialState 10 (some 2)).1 ∧
      (calculate_position_size Portfolio.initialState 10 (some 2)).1 * 10 ≤
        Portfolio.initialState.cash_balance) :=
  ⟨by norm_num [Portfolio.initialState, STARTING_BALANCE_USD], by norm_num,
    C8_sizing_cash_bound Portfolio.initialState 10 (some 2)
      (by norm_num [Portfolio.initialState, STARTING_BALANCE_USD])
      (by norm_num)⟩

/-- One update step: `highest_price` may only rise and the trailing stop,
once set, may only rise; trailing consistency is preserved. -/
theorem updatePosition_mono (p : Portfolio.Position) (cp : ℚ)
    (hwf : TrailingConsistent p) :
    MonoStep p (updatePosition p cp) ∧
      TrailingConsistent (updatePosition p cp) := by
  cases hact : p.trailing_stop_active with
  | false =>
      have hstop : p.trailing_stop_price = none := by
        unfold TrailingConsistent at hwf
        rw [hact] at hwf
        exact Option.not_isSome_iff_eq_none.mp (by simp [hwf])
      unfold updatePosition MonoStep TrailingConsistent stopLe
      simp only [hact, hstop, eq_self_iff_true, and_true]
      by_cases hc : TRAILING_STOP_ACTIVATION_PCT ≤ (cp - p.entry_price) / p.entry_price
      · rw [if_pos hc]
        simp only [apply_ite Position.highest_price,
          apply_ite Position.trailing_stop_price,
          apply_ite Position.trailing_stop_active]
        split_ifs
        all_goals try simp_all
        all_goals linarith
      · rw [if_neg hc]
        split_ifs
        all_goals try simp_all
        all_goals linarith
  | true =>
      have hsome : (p.trailing_stop_price).isSome = true := by
        unfold TrailingConsistent at hwf
        rw [hact] at hwf
        exact hwf
      obtain ⟨t, hstop⟩ := Option.isSome_iff_exists.mp hsome
      unfold updatePosition MonoStep TrailingConsistent stopLe
      simp only [hact, hstop]
      split_ifs
      all_goals simp only [apply_ite Position.highest_price,
        apply_ite Position.trailing_stop_price,
        apply_ite Position.trailing_stop_active]
      all_goals try split_ifs
      all_goals try simp_all
      all_goals repeat' constructor
      all_goals linarith

/-- Chained form of `updatePosition_mono` over an arbitrary price list. -/
theorem chain_updateSeq : ∀ (l : List ℚ) (p : Portfolio.Position),
    TrailingConsistent p → List.Chain' MonoStep (updateSeq p l)
  | [], p, _ => by simp [updateSeq]
  | q :: qs, p, hwf => by
      have hstep := updatePosition_mono p q hwf
      have ih := chain_updateSeq qs (updatePosition p q) hstep.2
      cases qs with
      | nil =>
          simp only [updateSeq]
          exact List.chain'_cons.mpr ⟨hstep.1, List.chain'_singleton _⟩
      | cons r rs =>
          simp only [updateSeq] at ih ⊢
          exact List.chain'_cons.mpr ⟨hstep.1, ih⟩

/-- Claim C7: across any sequence of `update_position` calls with positive
prices on an open position (whose trailing fields are consistent, as every
position created by `open_position` is), `highest_price` is non-decreasing
step by step, and `trailing_stop_price`, once set, is never cleared and
never lowered; moreover `update_position` on the tracker stores exactly
`updatePosition` of the looked-up position. -/
theorem C7_trailing_monotone (p : Portfolio.Position) (l : List ℚ)
    (hwf : TrailingConsistent p) (hpos : ∀ q ∈ l, (0 : ℚ) < q) :
    List.Chain' MonoStep (updateSeq p l) ∧
      (∀ (s : Portfolio.State) (pair : String) (q : ℚ),
        findPos s.positions pair = some p →
          findPos (update_position s pair q).positions pair
            = some (updatePosition p q)) := by
  constructor
  · exact chain_updateSeq l p hwf
  · intro s pair q hp
    simp [update_position, hp, findPos_setPos_self]

/-- Claim C7, witness: a fresh position updated with prices 12 then 13
(activating and then ratcheting the trailing stop). -/
theorem C7_trailing_monotone_witness :
    TrailingConsistent
        (⟨10, 25, 25, 250, 250, 0, 10, false, false, false, none⟩ :
          Portfolio.Position) ∧
      (∀ q ∈ [(12 : ℚ), 13], (0 : ℚ) < q) ∧
      List.Chain' MonoStep
        (updateSeq
          ⟨10, 25, 25, 250, 250, 0, 10, false, false, false, none⟩
          [12, 13]) :=
  ⟨by simp [TrailingConsistent],
   by norm_num,
   (C7_trailing_monotone
      ⟨10, 25, 25, 250, 250, 0, 10, false, false, false, none⟩ [12, 13]
      (by simp [TrailingConsistent]) (by norm_num)).1⟩

theorem Bot_findPos_setPos_self (ps : List (String × Bot.Position))
    (k : String) (v : Bot.Position) :
    Bot.findPos (Bot.setPos ps k v) k = some v := by
  simp [Bot.setPos, Bot.findPos]

/-- Claim C3, counterexample: the portfolio.py `open_position` succeeds
from the initial state yet appends no BUY trade record — the trade history
stays empty, refuting "appends exactly one BUY trade record". -/
theorem C3_open_no_trade_record_counterexample :
    (open_position Portfolio.initialState "BTC-USD" 10 none).1 = true ∧
    (open_position Portfolio.initialState "BTC-USD" 10 none).2.trade_history
      = [] := by
  norm_num [STARTING_BALANCE_USD, MAX_POSITIONS, MAX_EXPOSURE, MAX_PER_TRADE,
    MIN_TRADE_SIZE, RISK_PER_TRADE, Portfolio.initialState, Portfolio.findPos,
    Portfolio.erasePair, Portfolio.setPos,
    Portfolio.calculate_total_balance, Portfolio.calculate_position_size,
    Portfolio.open_position, min_def]

/-- Claim C3, amended: the src/bot.py `open_position` behaves as claimed —
on success it creates one fresh position with `current = original`
quantity, debits cash by quantity × price and appends exactly one BUY
trade record (quantity and price, empty exit/PnL columns); on failure it
returns false and changes nothing.  The src/portfolio.py variant behaves
identically except that it appends no trade record at all. -/
theorem C3_open_position_amended (sb : Bot.State) (sp : Portfolio.State)
    (pair : String) (price : ℚ) (atr_value : Option ℚ) :
    ((Bot.open_position sb pair price atr_value).1 = true →
        (Bot.open_position sb pair price atr_value).2.trade_history
            = sb.trade_history ++
              [{ pair := pair, action := "BUY", entry_price := price,
                 exit_price := none,
                 quantity := (Bot.calculate_position_size sb price atr_value).1,
                 pnl_usd := none, pnl_percent := none }] ∧
        (Bot.open_position sb pair price atr_value).2.cash_balance
            = sb.cash_balance -
                (Bot.calculate_position_size sb price atr_value).1 * price ∧
        Bot.findPos (Bot.open_position sb pair price atr_value).2.positions
            pair
          = some
              { entry_price := price
                original_quantity :=
                  (Bot.calculate_position_size sb price atr_value).1
                current_quantity :=
                  (Bot.calculate_position_size sb price atr_value).1
                tier_1_sold := 0
                tier_2_sold := 0
                tier_1_executed := false
                tier_2_executed := false
                highest_price := price
                trailing_stop_price := none
                unrealized_pnl := 0 }) ∧
    ((Bot.open_position sb pair price atr_value).1 = false →
        (Bot.open_position sb pair price atr_value).2 = sb) ∧
    ((open_position sp pair price atr_value).1 = true →
        (open_position sp pair price atr_value).2.trade_history
            = sp.trade_history ∧
        (open_position sp pair price atr_value).2.cash_balance
            = sp.cash_balance -
                (calculate_position_size sp price atr_value).1 * price ∧
        findPos (open_position sp pair price atr_value).2.positions pair
          = some
              { entry_price := price
                total_quantity := (calculate_position_size sp price atr_value).1
                remaining_quantity :=
                  (calculate_position_size sp price atr_value).1
                entry_value :=
                  (calculate_position_size sp price atr_value).1 * price
                position_value :=
                  (calculate_position_size sp price atr_value).1 * price
                unrealized_pnl := 0
                highest_price := price
                tier_1_sold := false
                tier_2_sold := false
                trailing_stop_active := false
                trailing_stop_price := none }) ∧
    ((open_position sp pair price atr_value).1 = false →
        (open_position sp pair price atr_value).2 = sp) := by
  refine ⟨?_, ?_, ?_, ?_⟩
  · intro hok
    by_cases h1 : (Bot.calculate_position_size sb price atr_value).1 ≤ 0
    · simp [Bot.open_position, h1] at hok
    · by_cases h2 :
        (Bot.calculate_position_size sb price atr_value).1 * price
          > sb.cash_balance
      · simp [Bot.open_position, h1, h2] at hok
      · refine ⟨?_, ?_, ?_⟩ <;>
          simp [Bot.open_position, h1, h2, Bot_findPos_setPos_self]
  · intro hfail
    by_cases h1 : (Bot.calculate_position_size sb price atr_value).1 ≤ 0
    · simp [Bot.open_position, h1]
    · by_cases h2 :
        (Bot.calculate_position_size sb price atr_value).1 * price
          > sb.cash_balance
      · simp [Bot.open_position, h1, h2]
      · simp [Bot.open_position, h1, h2] at hfail
  · intro hok
    by_cases h1 : (calculate_position_size sp price atr_value).1 ≤ 0
    · simp [open_position, h1] at hok
    · by_cases h2 :
        (calculate_position_size sp price atr_value).1 * price
          > sp.cash_balance
      · simp [open_position, h1, h2] at hok
      · refine ⟨?_, ?_, ?_⟩ <;>
          simp [open_position, h1, h2, findPos_setPos_self]
  · intro hfail
    by_cases h1 : (calculate_position_size sp price atr_value).1 ≤ 0
    · simp [open_position, h1]
    · by_cases h2 :
        (calculate_position_size sp price atr_value).1 * price
          > sp.cash_balance
      · simp [open_position, h1, h2]
      · simp [open_position, h1, h2] at hfail

/-- Claim C3, witness: a successful bot-tracker open from the fresh state
appends exactly the BUY record, debits cash, and stores the fresh
position. -/
theorem C3_open_position_amended_witness :
    (Bot.open_position Bot.initialState "A" 10 none).1 = true ∧
    ((Bot.open_position Bot.initialState "A" 10 none).2.trade_history
        = Bot.initialState.trade_history ++
          [{ pair := "A", action := "BUY", entry_price := 10,
             exit_price := none,
             quantity := (Bot.calculate_position_size Bot.initialState 10 none).1,
             pnl_usd := none, pnl_percent := none }] ∧
      (Bot.open_position Bot.initialState "A" 10 none).2.cash_balance
          = Bot.initialState.cash_balance -
              (Bot.calculate_position_size Bot.initialState 10 none).1 * 10 ∧
      Bot.findPos
          (Bot.open_position Bot.initialState "A" 10 none).2.positions "A"
        = some
            { entry_price := 10
              original_quantity :=
                (Bot.calculate_position_size Bot.initialState 10 none).1
              current_quantity :=
                (Bot.calculate_position_size Bot.initialState 10 none).1
              tier_1_sold := 0
              tier_2_sold := 0
              tier_1_executed := false
              tier_2_executed := false
              highest_price := 10
              trailing_stop_price := none
              unrealized_pnl := 0 }) :=
  ⟨by norm_num [STARTING_BALANCE_USD, MAX_POSITIONS, MAX_EXPOSURE, MAX_PER_TRADE,
    MIN_TRADE_SIZE, RISK_PER_TRADE, Bot.initialState, Bot.findPos,
    Bot.erasePair, Bot.setPos, Bot.calculate_total_balance,
    Bot.calculate_position_size, Bot.open_position, min_def],
   (C3_open_position_amended Bot.initialState Portfolio.initialState
      "A" 10 none).1
     (by norm_num [STARTING_BALANCE_USD, MAX_POSITIONS, MAX_EXPOSURE, MAX_PER_TRADE,
    MIN_TRADE_SIZE, RISK_PER_TRADE, Bot.initialState, Bot.findPos,
    Bot.erasePair, Bot.setPos, Bot.calculate_total_balance,
    Bot.calculate_position_size, Bot.open_position, min_def])⟩

/-- Claim C10: the two ledger variants are not equivalent on partial tier
exits.  In the bot.py tracker a `partial_close_position` with a tier label
whose executed flag is already set still sells the given percentage of the
original quantity again — returning the corresponding PnL, crediting cash
by the sale proceeds and appending another trade record — while the
portfolio.py `execute_tier_exit` returns 0 and leaves the state unchanged
in the same situation. -/
theorem C10_variant_divergence (sb : Bot.State) (sp : Portfolio.State)
    (pair : String) (exit_price pct cp : ℚ) (reason rs : String)
    (pb : Bot.Position) (pp : Portfolio.Position)
    (hb : Bot.findPos sb.positions pair = some pb)
    (hp : findPos sp.positions pair = some pp) :
    (pb.tier_1_executed = true →
      (Bot.partial_close_position sb pair exit_price pct "TIER_1" reason).1
          = (exit_price - pb.entry_price) * Bot.clampedSellQuantity pb pct ∧
      (Bot.partial_close_position sb pair exit_price pct "TIER_1"
          reason).2.cash_balance
          = sb.cash_balance + exit_price * Bot.clampedSellQuantity pb pct ∧
      (Bot.partial_close_position sb pair exit_price pct "TIER_1"
          reason).2.trade_history
          = sb.trade_history ++
            [{ pair := pair, action := reason ++ "_" ++ "TIER_1",
               entry_price := pb.entry_price, exit_price := some exit_price,
               quantity := Bot.clampedSellQuantity pb pct,
               pnl_usd := some
                 ((exit_price - pb.entry_price) *
                   Bot.clampedSellQuantity pb pct),
               pnl_percent := some
                 ((exit_price - pb.entry_price) / pb.entry_price * 100) }]) ∧
    (pb.tier_2_executed = true →
      (Bot.partial_close_position sb pair exit_price pct "TIER_2" reason).1
          = (exit_price - pb.entry_price) * Bot.clampedSellQuantity pb pct ∧
      (Bot.partial_close_position sb pair exit_price pct "TIER_2"
          reason).2.cash_balance
          = sb.cash_balance + exit_price * Bot.clampedSellQuantity pb pct ∧
      (Bot.partial_close_position sb pair exit_price pct "TIER_2"
          reason).2.trade_history
          = sb.trade_history ++
            [{ pair := pair, action := reason ++ "_" ++ "TIER_2",
               entry_price := pb.entry_price, exit_price := some exit_price,
               quantity := Bot.clampedSellQuantity pb pct,
               pnl_usd := some
                 ((exit_price - pb.entry_price) *
                   Bot.clampedSellQuantity pb pct),
               pnl_percent := some
                 ((exit_price - pb.entry_price) / pb.entry_price * 100) }]) ∧
    (pp.tier_1_sold = true →
      execute_tier_exit sp pair cp 1 rs = (0, sp)) ∧
    (pp.tier_2_sold = true →
      execute_tier_exit sp pair cp 2 rs = (0, sp)) := by
  refine ⟨?_, ?_, ?_, ?_⟩
  · intro _
    refine ⟨?_, ?_, ?_⟩ <;>
      simp [Bot.partial_close_position, hb, Bot.clampedSellQuantity] <;>
      split_ifs <;> simp
  · intro _
    refine ⟨?_, ?_, ?_⟩ <;>
      simp [Bot.partial_close_position, hb, Bot.clampedSellQuantity] <;>
      split_ifs <;> simp
  · intro h1
    simp [execute_tier_exit, hp, h1]
  · intro h2
    simp [execute_tier_exit, hp, h2]

/-- Claim C10, witness: concrete state with both tier flags already
executed — the bot tracker sells again, the portfolio tracker no-ops. -/
theorem C10_variant_divergence_witness :
    ((Bot.partial_close_position
        { positions :=
            [("A", ⟨10, 25, 10, 15/2, 15/2, true, true, 12, none, 0⟩)]
          trade_history := []
          total_pnl := 0
          cash_balance := 850
          starting_balance := 1000 } "A" 12 (3/10) "TIER_1" "PARTIAL_SELL").1
        = (12 - 10) * Bot.clampedSellQuantity
            ⟨10, 25, 10, 15/2, 15/2, true, true, 12, none, 0⟩ (3/10)) ∧
    (execute_tier_exit
        { positions :=
            [("A", ⟨10, 25, 10, 250, 250, 0, 12, true, true, false, none⟩)]
          trade_history := []
          total_pnl := 0
          cash_balance := 850
          starting_balance := 1000 } "A" 12 1 "tp1" =
      (0,
        { positions :=
            [("A", ⟨10, 25, 10, 250, 250, 0, 12, true, true, false, none⟩)]
          trade_history := []
          total_pnl := 0
          cash_balance := 850
          starting_balance := 1000 })) :=
  ⟨((C10_variant_divergence
      { positions :=
          [("A", ⟨10, 25, 10, 15/2, 15/2, true, true, 12, none, 0⟩)]
        trade_history := []
        total_pnl := 0
        cash_balance := 850
        starting_balance := 1000 }
      { positions :=
          [("A", ⟨10, 25, 10, 250, 250, 0, 12, true, true, false, none⟩)]
        trade_history := []
        total_pnl := 0
        cash_balance := 850
        starting_balance := 1000 } "A" 12 (3/10) 12 "PARTIAL_SELL" "tp1"
      ⟨10, 25, 10, 15/2, 15/2, true, true, 12, none, 0⟩
      ⟨10, 25, 10, 250, 250, 0, 12, true, true, false, none⟩
      (by simp [Bot.findPos]) (by simp [findPos])).1 rfl).1,
   ((C10_variant_divergence
      { positions :=
          [("A", ⟨10, 25, 10, 15/2, 15/2, true, true, 12, none, 0⟩)]
        trade_history := []
        total_pnl := 0
        cash_balance := 850
        starting_balance := 1000 }
      { positions :=
          [("A", ⟨10, 25, 10, 250, 250, 0, 12, true, true, false, none⟩)]
        trade_history := []
        total_pnl := 0
        cash_balance := 850
        starting_balance := 1000 } "A" 12 (3/10) 12 "PARTIAL_SELL" "tp1"
      ⟨10, 25, 10, 15/2, 15/2, true, true, 12, none, 0⟩
      ⟨10, 25, 10, 250, 250, 0, 12, true, true, false, none⟩
      (by simp [Bot.findPos]) (by simp [findPos])).2.2.1 rfl)⟩

/-- `check_trailing_stop` on the tracker agrees with the per-position
trailing trigger of the looked-up position. -/
theorem check_trailing_stop_eq (s : Portfolio.State) (pair : String)
    (cp : ℚ) (p : Portfolio.Position)
    (h : findPos s.positions pair = some p) :
    check_trailing_stop s pair cp = trailingTriggered p cp := by
  unfold check_trailing_stop Strategy.trailingTriggered
  rw [h]
  dsimp only
  cases hact : p.trailing_stop_active
  · simp
  · cases hstop : p.trailing_stop_price with
    | none => simp
    | some t =>
        by_cases ht : t = 0 <;> simp [ht]

/-- Claim C4, amended: with indicators supplied (RSI value `r`, positive
ATR `a`), a positive entry price, enough candles and an open position, the
sell decision of `enhanced_should_sell` follows this priority order on the
updated position: (1) RSI overbought (`r > 70`) — full close; (2) ATR
stop-loss breach (`current ≤ entry − 1.5 × a`) — full close; (3) trailing
stop triggered — full close of the remainder; (4) tier-1 partial exit if
not yet sold and `current ≥ entry + 2a`; (5) tier-2 partial exit if not
yet sold and `current ≥ entry + 4a`; (6) otherwise HOLD; and the tracker
state is the one after the in-place `update_position` call. -/
theorem C4_sell_priority_amended (s : Portfolio.State) (pair : String)
    (p : Portfolio.Position) (r a current_price entry_price : ℚ) (n : ℕ)
    (hn : ¬ n < 15) (hp : findPos s.positions pair = some p)
    (ha : 0 < a) (he : 0 < entry_price) :
    enhanced_should_sell (some r) (some a) n current_price entry_price s pair
      = (sellSpecDecision r a current_price entry_price
          (updatePosition p current_price),
        update_position s pair current_price) := by
  have hfind2 : findPos
      (update_position s pair current_price).positions pair
      = some (updatePosition p current_price) := by
    simp only [update_position, hp]
    exact findPos_setPos_self _ _ _
  have hane : a ≠ 0 := ne_of_gt ha
  have hene : entry_price ≠ 0 := ne_of_gt he
  have ht1ne : entry_price + ATR_DYNAMIC_TP1_MULTIPLIER * a ≠ 0 := by
    have h0 : (0 : ℚ) < entry_price + ATR_DYNAMIC_TP1_MULTIPLIER * a := by
      rw [ATR_DYNAMIC_TP1_MULTIPLIER]; linarith
    exact ne_of_gt h0
  have ht2ne : entry_price + ATR_DYNAMIC_TP2_MULTIPLIER * a ≠ 0 := by
    have h0 : (0 : ℚ) < entry_price + ATR_DYNAMIC_TP2_MULTIPLIER * a := by
      rw [ATR_DYNAMIC_TP2_MULTIPLIER]; linarith
    exact ne_of_gt h0
  have h70 : r > RSI_OVERBOUGHT_THRESHOLD → r ≠ 0 := by
    intro hr
    have h0 : (0 : ℚ) < r :=
      lt_trans (by rw [RSI_OVERBOUGHT_THRESHOLD]; norm_num) hr
    exact ne_of_gt h0
  have htargets : get_dynamic_targets entry_price (some a)
      = (some (entry_price + ATR_DYNAMIC_TP1_MULTIPLIER * a),
         some (entry_price + ATR_DYNAMIC_TP2_MULTIPLIER * a)) := by
    unfold get_dynamic_targets
    dsimp only
    rw [if_neg (not_le.mpr ha)]
  unfold enhanced_should_sell
  rw [if_neg hn, hp]
  dsimp only
  rw [hfind2]
  dsimp only
  rw [htargets]
  dsimp only
  unfold sellSpecDecision
  rw [check_trailing_stop_eq (update_position s pair current_price) pair
    current_price (updatePosition p current_price) hfind2]
  by_cases hr : r > RSI_OVERBOUGHT_THRESHOLD
  · simp [hr, h70 hr]
  · have hrb : (decide (r ≠ 0) && decide (r > RSI_OVERBOUGHT_THRESHOLD))
        = false := by simp [hr]
    simp only [hrb, Bool.false_eq_true, if_false, if_neg hr]
    by_cases hstop : current_price ≤ entry_price - ATR_STOP_LOSS_MULTIPLIER * a
    · simp [hstop, hane, hene]
    · have hab : (decide (a ≠ 0) && decide (entry_price ≠ 0) &&
          decide (current_price ≤ entry_price - ATR_STOP_LOSS_MULTIPLIER * a))
          = false := by simp [hstop]
      simp only [hab, Bool.false_eq_true, if_false, if_neg hstop]
      by_cases htr : trailingTriggered (updatePosition p current_price)
          current_price = true
      · simp [htr]
      · rw [Bool.not_eq_true] at htr
        simp only [htr, Bool.false_eq_true, if_false]
        by_cases h1s : (updatePosition p current_price).tier_1_sold = false
        · by_cases h1t : current_price ≥ entry_price + ATR_DYNAMIC_TP1_MULTIPLIER * a
          · simp [h1s, h1t, ht1ne]
          · by_cases h2s : (updatePosition p current_price).tier_2_sold = false
            · by_cases h2t : current_price ≥ entry_price + ATR_DYNAMIC_TP2_MULTIPLIER * a
              · simp [h1s, h1t, h2s, h2t, ht1ne, ht2ne]
              · simp [h1s, h1t, h2s, h2t, ht1ne, ht2ne]
            · simp [h1s, h1t, h2s, ht1ne, ht2ne]
        · by_cases h2s : (updatePosition p current_price).tier_2_sold = false
          · by_cases h2t : current_price ≥ entry_price + ATR_DYNAMIC_TP2_MULTIPLIER * a
            · simp [h1s, h2s, h2t, ht1ne, ht2ne]
            · simp [h1s, h2s, h2t, ht1ne, ht2ne]
          · simp [h1s, h2s, ht1ne, ht2ne]


/-- Claim C4, counterexample: with RSI 75 and no stop breach, no tier
target reached and no trailing trigger, the claim's priority list says
HOLD, but the code returns a full close "SELL (RSI)" — the RSI-overbought
check, absent from the claim, fires first. -/
theorem C4_sell_priority_counterexample :
    (enhanced_should_sell (some 75) (some 1) 50 (21/2) 10
        ⟨[("A", ⟨10, 25, 25, 250, 250, 0, 10, false, false, false, none⟩)],
         [], 0, 750, 1000⟩ "A").1 = (true, "SELL (RSI)") ∧
    ¬((21/2 : ℚ) ≤ 10 - ATR_STOP_LOSS_MULTIPLIER * 1) ∧
    ¬((21/2 : ℚ) ≥ 10 + ATR_DYNAMIC_TP1_MULTIPLIER * 1) ∧
    ¬((21/2 : ℚ) ≥ 10 + ATR_DYNAMIC_TP2_MULTIPLIER * 1) ∧
    check_trailing_stop
        (update_position
          ⟨[("A", ⟨10, 25, 25, 250, 250, 0, 10, false, false, false, none⟩)],
           [], 0, 750, 1000⟩ "A" (21/2)) "A" (21/2) = false ∧
    ((true, "SELL (RSI)") : Bool × String) ≠ (false, "HOLD") := by
  norm_num [STARTING_BALANCE_USD, ATR_STOP_LOSS_MULTIPLIER,
    ATR_DYNAMIC_TP1_MULTIPLIER, ATR_DYNAMIC_TP2_MULTIPLIER,
    RSI_OVERBOUGHT_THRESHOLD, TRAILING_STOP_ACTIVATION_PCT,
    TRAILING_STOP_DISTANCE_PCT, Portfolio.findPos, Portfolio.erasePair,
    Portfolio.setPos, Portfolio.updatePosition, Portfolio.update_position,
    Portfolio.check_trailing_stop, Strategy.enhanced_should_sell,
    Strategy.get_dynamic_targets]

/-- Claim C4, witness: concrete instantiation of the amended priority
equation at RSI 50, ATR 1, current price 11 on a fresh position. -/
theorem C4_sell_priority_amended_witness :
    enhanced_should_sell (some 50) (some 1) 50 11 10
        ⟨[("A", ⟨10, 25, 25, 250, 250, 0, 10, false, false, false, none⟩)],
         [], 0, 750, 1000⟩ "A"
      = (sellSpecDecision 50 1 11 10
          (updatePosition
            ⟨10, 25, 25, 250, 250, 0, 10, false, false, false, none⟩ 11),
        update_position
          ⟨[("A", ⟨10, 25, 25, 250, 250, 0, 10, false, false, false, none⟩)],
           [], 0, 750, 1000⟩ "A" 11) :=
  C4_sell_priority_amended
    ⟨[("A", ⟨10, 25, 25, 250, 250, 0, 10, false, false, false, none⟩)],
     [], 0, 750, 1000⟩ "A"
    ⟨10, 25, 25, 250, 250, 0, 10, false, false, false, none⟩
    50 1 11 10 50 (by norm_num) (by simp [Portfolio.findPos])
    (by norm_num) (by norm_num)

end CoinbaseTrading
